import Mathlib

/-!
Verification of the dataframe-summary synchronization and widget-lifecycle
state machine of the dataclean notebook extension
(src/dataclean/static/main.js).

The embedding models the DOM state the extension reads and writes as
structured values keyed by element ids:

* a class attribute is a list of class tokens (`Classes`);
* the summary table is a list of `DfRow` (one per dataframe descriptor),
  each holding the class of its pipeline detail cell (element id
  `<dfId>_row`), of its column sub-table cell (`table_<dfId>`), and a list
  of `ColRow` for its columns (detail cell id `<colId>_row`);
* an injected widget is an `Option WidgetDiv`: `none` models the
  "Loading widget..." placeholder, `some w` models the wrapper div
  created by the loader, with `w.hasOutput` recording whether a
  kernel reply has injected a `.output` element into it yet.

Kernel messages are modelled by `Msg` (msg_type plus content fields);
the payload text of a stream reply goes through a model of JSON.parse
(`JSONparse`, producing a dynamic `JSValue`), because the translated
code performs dynamic property accesses on the parsed value exactly as
the JavaScript does, including the TypeError / SyntaxError throw points.
The parse model is conservative: its successes are a subset of the
JSON.parse successes, with identical values on that subset (see the
JSONparse doc comment), and theorems about parse failure or parse
success are stated only on fragments where the model and JSON.parse
provably agree: blank texts for the failure side, well-formed
descriptor payloads (wfPayload) for the success side.
-/

/-- Classes represents the value of a class attribute as its list of
class tokens (jQuery toggleClass and hasClass operate on tokens). -/
abbrev Classes := List String

/-- hasCls models jQuery hasClass on a single element. -/
def hasCls (cls : Classes) (c : String) : Bool := cls.contains c

/-- toggleClass models jQuery toggleClass on a single element: remove the
token if present, append it otherwise. -/
def toggleClass (cls : Classes) (c : String) : Classes :=
  if cls.contains c then cls.filter (fun t => t != c) else cls ++ [c]

/-- Dom is the id-indexed view of element class attributes that
html_table reads via dollar selectors before the markup is replaced. -/
abbrev Dom := List (String × Classes)

/-- lookupD models reading the class attribute of the element with the
given id and falling back to a default when the attribute is undefined
(element absent), as in the `=== undefined` checks of html_table. -/
def lookupD (dom : Dom) (k : String) (dflt : Classes) : Classes :=
  (dom.lookup k).getD dflt

/-- JSValue is the dynamic value domain of the JavaScript code: the
possible results of JSON.parse, with `Option JSValue` standing for a
possibly-undefined value (numbers restricted to integers). -/
inductive JSValue where
  | null : JSValue
  | bool : Bool → JSValue
  | num : Int → JSValue
  | str : String → JSValue
  | arr : List JSValue → JSValue
  | obj : List (String × JSValue) → JSValue
  deriving Repr

mutual

/-- jsStr models the JavaScript string coercion applied by the `+`
markup concatenation in html_table. -/
def jsStr : JSValue → String
  | JSValue.null => "null"
  | JSValue.bool true => "true"
  | JSValue.bool false => "false"
  | JSValue.num n => toString n
  | JSValue.str s => s
  | JSValue.arr l => jsStrList l
  | JSValue.obj _ => "[object Object]"

/-- jsStrList models Array.prototype.toString: elements joined by commas,
with null rendered as the empty string. -/
def jsStrList : List JSValue → String
  | [] => ""
  | [JSValue.null] => ""
  | [v] => jsStr v
  | JSValue.null :: rest => "," ++ jsStrList rest
  | v :: rest => jsStr v ++ "," ++ jsStrList rest

end

/-- jsStrOpt coerces a possibly-undefined value, as JavaScript renders
undefined inside string concatenation. -/
def jsStrOpt : Option JSValue → String
  | none => "undefined"
  | some v => jsStr v

/-- jsProp models property access `v.k` on a value already known not to
be null or undefined (those receivers throw and are handled at each
access site): objects look the key up, other values yield undefined. -/
def jsProp (v : JSValue) (k : String) : Option JSValue :=
  match v with
  | JSValue.obj fields => fields.lookup k
  | _ => none

/-- jsIndexV models indexed access `v[i]`: array element, single
character of a string, or the numeric-string key of an object. -/
def jsIndexV (v : JSValue) (i : Nat) : Option JSValue :=
  match v with
  | JSValue.arr l => l.get? i
  | JSValue.str s => (s.toList.get? i).map (fun c => JSValue.str (String.singleton c))
  | JSValue.obj fields => fields.lookup (toString i)
  | _ => none

/-- jsLength models reading `.length` from a non-null value, as the
loop bounds of html_table do: arrays and strings expose their length,
and a plain object exposes its own length property, which JavaScript
coerces with ToNumber when the loop compares `i < length`. A numeric
value gives Int.toNat (a negative bound means zero iterations, and the
badge test `n > 0` is likewise false, so both observables agree); true
coerces to 1, false and null to 0. A string-, array- or object-valued
length property (whose ToNumber coercion can be fractional or NaN) is
left as undefined; no theorem's hypotheses reach such a value, since
they restrict objects to descriptor shapes. Booleans and numbers have
no length, hence undefined. -/
def jsLength : JSValue → Option Nat
  | JSValue.arr l => some l.length
  | JSValue.str s => some s.length
  | JSValue.obj fields =>
    match fields.lookup "length" with
    | some (JSValue.num n) => some n.toNat
    | some (JSValue.bool true) => some 1
    | some (JSValue.bool false) => some 0
    | some JSValue.null => some 0
    | _ => none
  | _ => none

/-- iterCount gives the number of iterations of a JavaScript
`for (i = 0; i < n; i++)` loop whose bound may be undefined: the
comparison with undefined is always false. -/
def iterCount : Option Nat → Nat
  | none => 0
  | some k => k

/-- jsGtZero models the comparison `n > 0` when n may be undefined. -/
def jsGtZero : Option Nat → Bool
  | none => false
  | some k => decide (0 < k)

/-- JsErr distinguishes the two exception kinds the translated handler
code can raise: a JSON.parse failure and a property access on
undefined or null. -/
inductive JsErr where
  | parseErr : JsErr
  | typeErr : JsErr
  deriving Repr, DecidableEq

/-- isWsChar tests for JSON whitespace. -/
def isWsChar (c : Char) : Bool :=
  c = ' ' || c = '\n' || c = '\t' || c = '\r'

/-- skipWs drops leading JSON whitespace. -/
def skipWs : List Char → List Char
  | [] => []
  | c :: cs => if isWsChar c then skipWs cs else c :: cs

/-- escCharOf decodes a single-character JSON escape, rejecting (like
JSON.parse) everything outside the eight legal ones; the uXXXX form is
also rejected here, conservatively shrinking the accepted set. -/
def escCharOf (c : Char) : Option Char :=
  match c with
  | '"' => some '"'
  | '\\' => some '\\'
  | '/' => some '/'
  | 'b' => some (Char.ofNat 8)
  | 'f' => some (Char.ofNat 12)
  | 'n' => some '\n'
  | 'r' => some '\r'
  | 't' => some '\t'
  | _ => none

/-- parseStringRest parses the remainder of a JSON string after the
opening quote, returning the decoded string and the rest of the input.
As JSON.parse does, it rejects raw control characters (below 0x20) and
escapes outside the legal set. -/
def parseStringRest : List Char → Option (String × List Char)
  | [] => none
  | '"' :: rest => some ("", rest)
  | '\\' :: rest =>
    match rest with
    | [] => none
    | c :: rest2 =>
      match escCharOf c with
      | none => none
      | some d =>
        (parseStringRest rest2).map (fun p => (String.singleton d ++ p.1, p.2))
  | c :: rest =>
    if c.toNat < 32 then none
    else (parseStringRest rest).map (fun p => (String.singleton c ++ p.1, p.2))

/-- parseDigitsAux accumulates a run of decimal digits. -/
def parseDigitsAux : List Char → Nat → Nat × List Char
  | [], acc => (acc, [])
  | c :: cs, acc =>
    if c.isDigit then parseDigitsAux cs (acc * 10 + (c.toNat - '0'.toNat))
    else (acc, c :: cs)

/-- parseNatNum parses the digit part of a JSON number: a lone zero or
a nonzero digit followed by digits. A zero followed by a digit is
rejected, as JSON.parse rejects it. A fraction or exponent continuation
is left unconsumed, which makes the enclosing parse fail on the
leftover text: non-integer numbers are rejected wholesale
(conservative, see JSONparse). -/
def parseNatNum : List Char → Option (Nat × List Char)
  | [] => none
  | '0' :: c :: cs => if c.isDigit then none else some (0, c :: cs)
  | c :: cs =>
    if c.isDigit then some (parseDigitsAux (c :: cs) 0) else none

/-- parseNum parses a JSON integer with an optional leading minus. -/
def parseNum : List Char → Option (Int × List Char)
  | '-' :: cs => (parseNatNum cs).map (fun p => (-(p.1 : Int), p.2))
  | cs => (parseNatNum cs).map (fun p => ((p.1 : Int), p.2))

/-- consField prepends an object member unless a later occurrence of
the same key exists, mirroring the last-occurrence-wins resolution
JSON.parse applies to duplicate keys. -/
def consField (k : String) (v : JSValue) (fields : List (String × JSValue)) :
    List (String × JSValue) :=
  match fields.lookup k with
  | some _ => fields
  | none => (k, v) :: fields

mutual

/-- parseVal parses one JSON value (fuel-indexed recursion). -/
def parseVal : Nat → List Char → Option (JSValue × List Char)
  | 0, _ => none
  | fuel + 1, cs =>
    match skipWs cs with
    | 'n' :: 'u' :: 'l' :: 'l' :: rest => some (JSValue.null, rest)
    | 't' :: 'r' :: 'u' :: 'e' :: rest => some (JSValue.bool true, rest)
    | 'f' :: 'a' :: 'l' :: 's' :: 'e' :: rest => some (JSValue.bool false, rest)
    | '"' :: rest => (parseStringRest rest).map (fun p => (JSValue.str p.1, p.2))
    | '[' :: rest =>
      (match skipWs rest with
       | ']' :: r => some (JSValue.arr [], r)
       | cs2 => (parseItems fuel cs2).map (fun p => (JSValue.arr p.1, p.2)))
    | '{' :: rest =>
      (match skipWs rest with
       | '}' :: r => some (JSValue.obj [], r)
       | cs2 => (parseFieldList fuel cs2).map (fun p => (JSValue.obj p.1, p.2)))
    | cs2 => (parseNum cs2).map (fun p => (JSValue.num p.1, p.2))

/-- parseItems parses the items of a non-empty JSON array up to the
closing bracket. -/
def parseItems : Nat → List Char → Option (List JSValue × List Char)
  | 0, _ => none
  | fuel + 1, cs =>
    match parseVal fuel cs with
    | none => none
    | some (v, r) =>
      match skipWs r with
      | ',' :: r2 => (parseItems fuel r2).map (fun p => (v :: p.1, p.2))
      | ']' :: r2 => some ([v], r2)
      | _ => none

/-- parseFieldList parses the members of a non-empty JSON object up to
the closing brace. JSON.parse resolves a duplicate key to its last
occurrence, so a field is kept only when no later occurrence of its key
exists (consField), making member lookups see the final value. -/
def parseFieldList : Nat → List Char → Option (List (String × JSValue) × List Char)
  | 0, _ => none
  | fuel + 1, cs =>
    match skipWs cs with
    | '"' :: rest =>
      (match parseStringRest rest with
       | none => none
       | some (k, r) =>
         match skipWs r with
         | ':' :: r2 =>
           (match parseVal fuel r2 with
            | none => none
            | some (v, r3) =>
              match skipWs r3 with
              | ',' :: r4 => (parseFieldList fuel r4).map (fun p => (consField k v p.1, p.2))
              | '}' :: r4 => some ([(k, v)], r4)
              | _ => none)
         | _ => none)
    | _ => none

end

/-- JSONparse models JSON.parse conservatively: every text it accepts
is also accepted by JSON.parse with the same value (leading-zero
numbers, raw control characters in strings, unknown escapes and
trailing input are rejected, and duplicate object keys resolve to the
later occurrence, exactly as JSON.parse does), while some texts
JSON.parse accepts are rejected here (numbers with a fraction or
exponent, uXXXX escapes). Because the failure set is thereby larger
than the SyntaxError set of JSON.parse, theorems never quantify over
JSONparse failure at large: the parse-failure claim C4 is stated for
blank texts only, where both fail, and the no-throw claim C7 is stated
over parses into well-formed descriptor payloads, which lie in the
agreeing fragment. -/
def JSONparse (s : String) : Option JSValue :=
  match parseVal (2 * s.length + 2) s.toList with
  | none => none
  | some (v, rest) => if skipWs rest = [] then some v else none

example : JSONparse "" = none := rfl
example : JSONparse "[]" = some (JSValue.arr []) := rfl
example : JSONparse "[]\n" = some (JSValue.arr []) := rfl
example : JSONparse " [1, \x7b\"a\": \"b\"\x7d] " =
    some (JSValue.arr [JSValue.num 1, JSValue.obj [("a", JSValue.str "b")]]) := rfl
example : JSONparse "nonsense" = none := rfl

/-- WidgetDiv models a wrapper div created by the widget loader
(element id `<rowId>_widget`); hasOutput records whether an asynchronous
display_data reply has injected a `.output` element into it, which is
exactly the condition the loader guard tests with
`find('.output').length`. -/
structure WidgetDiv where
  hasOutput : Bool
  deriving Repr, DecidableEq

/-- ColRow is the rendered state of one column of a dataframe: the
toggle anchor (id `<colId>`, classes toggleColumn / arrow-right or
arrow-down), the rendered text cells, the detail cell (id
`<colId>_row`) with its class attribute, and the widget wrapper inside
the detail cell (`none` is the "Loading widget..." placeholder). -/
structure ColRow where
  colId : String
  anchorCls : Classes
  colname : String
  dtype : String
  nulls : String
  distinct : String
  cls : Classes
  widget : Option WidgetDiv
  deriving Repr, DecidableEq

/-- DfRow is the rendered state of one dataframe: the toggle anchor
(classes toggleDataframe / arrow direction), the rendered text cells,
the pipeline detail cell (id `<dfId>_row`) and its widget wrapper, the
column sub-table cell (id `table_<dfId>`), and the column rows. -/
structure DfRow where
  dfId : String
  dfAnchorCls : Classes
  dfName : String
  dfShape : String
  dfColnames : String
  pipelineCls : Classes
  pipelineWidget : Option WidgetDiv
  tableCls : Classes
  cols : List ColRow
  deriving Repr, DecidableEq

/-- colElems lists the id-bearing elements a ColRow contributes to the
document, in document order, with their class attributes (the widget
wrapper div carries no class attribute, so it contributes nothing to
class lookups). -/
def colElems (c : ColRow) : Dom :=
  [(c.colId, c.anchorCls), (c.colId ++ "_row", c.cls)]

/-- dfElems lists the id-bearing elements a DfRow contributes to the
document, in document order: the pipeline detail cell, the sub-table
cell, the inner table (id `<dfId>`, class tablesorter), then the column
elements. -/
def dfElems (r : DfRow) : Dom :=
  [(r.dfId ++ "_row", r.pipelineCls),
   ("table_" ++ r.dfId, r.tableCls),
   (r.dfId, ["tablesorter"])]
  ++ (r.cols.map colElems).flatten

/-- domOfRows is the id-indexed class view of the whole summary table,
which is what the dollar-id selectors inside html_table consult. -/
def domOfRows (rows : List DfRow) : Dom :=
  (rows.map dfElems).flatten

/-- domKeys lists the element ids of the summary table in document
order; the claims assume these are distinct, as descriptor ids are
unique. -/
def domKeys (rows : List DfRow) : List String :=
  (domOfRows rows).map Prod.fst

/-- buildCol translates lines 158-179 of main.js: the body of the inner
column loop of html_table. A TypeError is raised when the element of
dfCols is undefined or null (the accesses of line 159 onward), or when
its description is undefined or null (line 166); the detail-cell class
is copied from the existing element with id `<colId>_row` when present,
defaulting to hidden (lines 172-178), and the cell content is reset to
the "Loading widget..." placeholder (line 179). The field reads are
pure, so only the nullity tests order observable behavior; the
description test is placed first here although the source reads colId
and colname (lines 164-165) before description (line 166). -/
def buildCol (dom : Dom) (colv : Option JSValue) : Except JsErr ColRow :=
  match colv with
  | none => Except.error JsErr.typeErr
  | some JSValue.null => Except.error JsErr.typeErr
  | some v =>
    match jsProp v "description" with
    | none => Except.error JsErr.typeErr
    | some JSValue.null => Except.error JsErr.typeErr
    | some d =>
      Except.ok
        { colId := jsStrOpt (jsProp v "colId")
          anchorCls := ["toggleColumn", "arrow-right"]
          colname := jsStrOpt (jsProp v "colname")
          dtype := jsStrOpt (jsProp d "dtype")
          nulls := jsStrOpt (jsProp d "null_percentage")
          distinct := jsStrOpt (jsProp d "distinct")
          cls := lookupD dom (jsStrOpt (jsProp v "colId") ++ "_row") ["hidden"]
          widget := none }

/-- buildCols runs buildCol over the successive elements of dfCols,
propagating the first thrown error, as the loop of lines 158-180 does. -/
def buildCols (dom : Dom) (vs : List (Option JSValue)) : Except JsErr (List ColRow) :=
  match vs with
  | [] => Except.ok []
  | colv :: rest =>
    match buildCol dom colv with
    | Except.error e => Except.error e
    | Except.ok c =>
      match buildCols dom rest with
      | Except.error e => Except.error e
      | Except.ok cs => Except.ok (c :: cs)

/-- buildDf translates lines 117-185 of main.js: the body of the outer
dataframe loop of html_table. A TypeError is raised when the descriptor
is undefined or null (the field accesses of lines 121-124), or when its
dfCols is undefined or null (the `.length` access of line 157); the
pipeline and sub-table detail-cell classes are copied from the existing
elements (lines 129-135 and 141-147) with their respective defaults,
and the pipeline cell content is reset to the loading placeholder (line 136).
The field reads are pure, so only the nullity tests order observable
behavior; the dfCols test is placed first here although the source
reads dfId through dfColnames (lines 121-124) and the classes (lines
129-147) before dfCols (line 157). -/
def buildDf (dom : Dom) (dfv : Option JSValue) : Except JsErr DfRow :=
  match dfv with
  | none => Except.error JsErr.typeErr
  | some JSValue.null => Except.error JsErr.typeErr
  | some v =>
    match jsProp v "dfCols" with
    | none => Except.error JsErr.typeErr
    | some JSValue.null => Except.error JsErr.typeErr
    | some colsv =>
      match buildCols dom
          ((List.range (iterCount (jsLength colsv))).map (fun j => jsIndexV colsv j)) with
      | Except.error e => Except.error e
      | Except.ok cols =>
        Except.ok
          { dfId := jsStrOpt (jsProp v "dfId")
            dfAnchorCls := ["toggleDataframe", "arrow-right"]
            dfName := jsStrOpt (jsProp v "dfName")
            dfShape := jsStrOpt (jsProp v "dfShape")
            dfColnames := jsStrOpt (jsProp v "dfColnames")
            pipelineCls := lookupD dom (jsStrOpt (jsProp v "dfId") ++ "_row")
              ["pipeline_widget", "hidden"]
            pipelineWidget := none
            tableCls := lookupD dom ("table_" ++ jsStrOpt (jsProp v "dfId")) ["hidden"]
            cols := cols }

/-- buildRows runs buildDf over the successive elements of the parsed
descriptor list, propagating the first thrown error, as the loop of
lines 117-185 does. -/
def buildRows (dom : Dom) (vs : List (Option JSValue)) : Except JsErr (List DfRow) :=
  match vs with
  | [] => Except.ok []
  | dfv :: rest =>
    match buildDf dom dfv with
    | Except.error e => Except.error e
    | Except.ok r =>
      match buildRows dom rest with
      | Except.error e => Except.error e
      | Except.ok rs => Except.ok (r :: rs)

/-- build translates the part of html_table after JSON.parse (lines
108-188): n_dataframes is set to `dfList.length` (line 115, undefined
when the parsed value has no length; reading length of null throws),
and the dataframe loop runs that many times over indexed accesses on
the parsed value. It returns the new table rows and the value assigned
to the global n_dataframes. -/
def build (v : JSValue) (dom : Dom) : Except JsErr (List DfRow × Option Nat) :=
  match v with
  | JSValue.null => Except.error JsErr.typeErr
  | _ =>
    match buildRows dom
        ((List.range (iterCount (jsLength v))).map (fun i => jsIndexV v i)) with
    | Except.error e => Except.error e
    | Except.ok rows => Except.ok (rows, jsLength v)

/-- html_table translates lines 106-189 of main.js: JSON.parse of the
stream text (line 107, SyntaxError modelled as parseErr) followed by
the table construction, reading existing expansion classes from the
current document. -/
def html_table (jsonDataframes : String) (dom : Dom) :
    Except JsErr (List DfRow × Option Nat) :=
  match JSONparse jsonDataframes with
  | none => Except.error JsErr.parseErr
  | some v => build v dom

/-- wfColElem holds of a column descriptor value on which the accesses
of the inner loop of html_table are all defined: an object whose
description member exists and is not null. -/
def wfColElem (cv : JSValue) : Bool :=
  match cv with
  | JSValue.obj _ =>
    (match jsProp cv "description" with
     | some JSValue.null => false
     | some _ => true
     | none => false)
  | _ => false

/-- wfDfElem holds of a dataframe descriptor value on which the
accesses of the outer loop of html_table are all defined: an object
whose dfCols member is an array of well-formed column descriptors. -/
def wfDfElem (dv : JSValue) : Bool :=
  match dv with
  | JSValue.obj _ =>
    (match jsProp dv "dfCols" with
     | some (JSValue.arr cols) => cols.all wfColElem
     | _ => false)
  | _ => false

/-- wfPayload holds of a parsed introspection payload of the shape the
kernel-side library emits - an array of well-formed dataframe
descriptors - on which html_table completes without throwing. -/
def wfPayload : JSValue → Bool
  | JSValue.arr items => items.all wfDfElem
  | _ => false

/-- Msg models a kernel iopub reply message as consumed by the
handlers: header.msg_type plus the content fields the code reads
(content.text may be undefined). -/
structure Msg where
  msg_type : String
  text : Option String
  evalue : String
  traceback : String
  deriving Repr, DecidableEq

/-- display_widgets translates lines 191-210 of main.js: a display_data
reply injects an output area into the wrapper div (so it then contains
an `.output` element); an error reply logs evalue and traceback with
the module prefix and leaves the wrapper untouched; any other message
type (stream included) changes nothing. The second component is the
list of warnings logged. -/
def display_widgets (msg : Msg) (wrapper : WidgetDiv) : WidgetDiv × List String :=
  let wrapper :=
    if msg.msg_type == "display_data" then { wrapper with hasOutput := true }
    else wrapper
  let warns :=
    if msg.msg_type == "error" then
      ["[dataclean] " ++ msg.evalue, "[dataclean] " ++ msg.traceback]
    else []
  (wrapper, warns)

/-- jqFindOutput models the guard `find('.output').length === 0` of the
widget loaders, negated: it is true exactly when a wrapper div exists
and already contains an injected output. -/
def jqFindOutput : Option WidgetDiv → Bool
  | some w => w.hasOutput
  | none => false

/-- display_column_widget translates lines 212-230 of main.js, acting
on the column row that the selector's id attributes designate: a no-op
when the panel wrapper is not visible; otherwise, when the widget div
contains no output yet, it replaces the detail cell content with a
fresh empty wrapper and issues one kernel execute call for the column
widget (counted in the second component). -/
def display_column_widget (visible : Bool) (c : ColRow) : ColRow × Nat :=
  if visible then
    if jqFindOutput c.widget then (c, 0)
    else ({ c with widget := some { hasOutput := false } }, 1)
  else (c, 0)

/-- display_pipeline_widget translates lines 232-248 of main.js: the
same contract as display_column_widget at dataframe granularity, on the
pipeline detail cell of a DfRow. -/
def display_pipeline_widget (visible : Bool) (r : DfRow) : DfRow × Nat :=
  if visible then
    if jqFindOutput r.pipelineWidget then (r, 0)
    else ({ r with pipelineWidget := some { hasOutput := false } }, 1)
  else (r, 0)

/-- toggleArrows models the two toggleClass calls flipping the anchor
between arrow-right and arrow-down. -/
def toggleArrows (cls : Classes) : Classes :=
  toggleClass (toggleClass cls "arrow-right") "arrow-down"

/-- toggleColumn_click translates the delegated click handler of lines
268-274 of main.js: toggle hidden on the detail cell of the column,
flip the anchor arrow, then call display_column_widget - note the call
happens on collapse clicks too. -/
def toggleColumn_click (visible : Bool) (c : ColRow) : ColRow × Nat :=
  let c := { c with cls := toggleClass c.cls "hidden",
                    anchorCls := toggleArrows c.anchorCls }
  display_column_widget visible c

/-- toggleDataframe_click translates the click handler of lines 276-282
of main.js: toggle hidden on the cells of both following child rows
(the pipeline cell and the sub-table cell), flip the anchor arrow, then
call display_pipeline_widget. -/
def toggleDataframe_click (visible : Bool) (r : DfRow) : DfRow × Nat :=
  let r := { r with pipelineCls := toggleClass r.pipelineCls "hidden",
                    tableCls := toggleClass r.tableCls "hidden",
                    dfAnchorCls := toggleArrows r.dfAnchorCls }
  display_pipeline_widget visible r

/-- redisplayCol translates lines 285-291 of main.js for one column
anchor: if the freshly rendered detail cell is not hidden, flip the
arrow and call display_column_widget to re-request the widget. -/
def redisplayCol (visible : Bool) (c : ColRow) : ColRow × Nat :=
  if hasCls c.cls "hidden" then (c, 0)
  else
    let c := { c with anchorCls := toggleArrows c.anchorCls }
    display_column_widget visible c

/-- redisplayCols folds redisplayCol over the column rows, summing the
issued requests. -/
def redisplayCols (visible : Bool) : List ColRow → List ColRow × Nat
  | [] => ([], 0)
  | c :: rest =>
    let p := redisplayCol visible c
    let q := redisplayCols visible rest
    (p.1 :: q.1, p.2 + q.2)

/-- redisplayDfRow translates lines 293-299 of main.js for one
dataframe anchor, together with the per-row effect of the column pass
of lines 285-291 (the two source passes visit anchors of distinct rows,
so their effects are row-local and commute): the pipeline widget is
re-requested unless the cell found by class pipeline_widget is hidden. -/
def redisplayDfRow (visible : Bool) (r : DfRow) : DfRow × Nat :=
  let p := redisplayCols visible r.cols
  let r := { r with cols := p.1 }
  let pwHidden := hasCls r.pipelineCls "pipeline_widget" && hasCls r.pipelineCls "hidden"
  if pwHidden then (r, p.2)
  else
    let r := { r with dfAnchorCls := toggleArrows r.dfAnchorCls }
    let q := display_pipeline_widget visible r
    (q.1, p.2 + q.2)

/-- redisplayAll folds redisplayDfRow over the freshly rendered table,
summing the issued widget requests. -/
def redisplayAll (visible : Bool) : List DfRow → List DfRow × Nat
  | [] => ([], 0)
  | r :: rest =>
    let p := redisplayDfRow visible r
    let q := redisplayAll visible rest
    (p.1 :: q.1, p.2 + q.2)

/-- JsState gathers the mutable state of the extension the claims are
about: the summary table rows, the badge visibility, the panel wrapper
visibility, the persisted window_display metadata flag, and counters of
the side-effecting kernel calls (creation snippet executions,
introspection polls, widget-load executes) plus logged warnings. -/
structure JsState where
  rows : List DfRow
  badgeHidden : Bool
  visible : Bool
  metadataWindowDisplay : Option Bool
  creationSnippets : Nat
  polls : Nat
  widgetRequests : Nat
  warnings : List String
  deriving Repr, DecidableEq

/-- varRefresh translates lines 315-322 of main.js: issue one kernel
execute of the fixed introspection command (cfg.python.varRefreshCmd),
with code_exec_callback registered on the reply. -/
def varRefresh (s : JsState) : JsState :=
  { s with polls := s.polls + 1 }

/-- data_cleaner translates lines 505-518 of main.js: create the panel
div if absent, rebind the window resize reflow (both state-neutral
here), then varRefresh. -/
def data_cleaner (s : JsState) : JsState :=
  varRefresh s

/-- datacleaner_init translates lines 325-348 of main.js: read the
configuration and register the toolbar button, run data_cleaner (which
polls), execute the guarded creation snippet for the remote
_datacleaner object, and bind the execution events. -/
def datacleaner_init (s : JsState) : JsState :=
  let s := data_cleaner s
  { s with creationSnippets := s.creationSnippets + 1 }

/-- toggle_datacleaner translates lines 520-531 of main.js: toggle the
panel wrapper, and in the completion callback persist window_display
(true exactly when the wrapper is now displayed) into the notebook
metadata and run data_cleaner again. -/
def toggle_datacleaner (s : JsState) : JsState :=
  let s := { s with visible := !s.visible }
  let s := { s with metadataWindowDisplay := some s.visible }
  data_cleaner s

/-- code_exec_callback translates lines 251-313 of main.js, the iopub
handler of the introspection poll. On a stream message: undefined text
runs datacleaner_init (self-healing); otherwise html_table rebuilds the
table from the text, reading the old document classes, and a thrown
parse or type error escapes the handler (modelled by Except.error);
on success the markup is replaced, the badge is updated from
n_dataframes (lines 260-265), the click handlers are rebound to the new
nodes (lines 267-282, state-neutral), and the redisplay passes re-open
the widgets of every row left expanded (lines 284-299). An error
message logs evalue and traceback (lines 309-312); other message types
do nothing. -/
def code_exec_callback (msg : Msg) (s : JsState) : Except JsErr JsState :=
  if msg.msg_type == "stream" then
    match msg.text with
    | none => Except.ok (datacleaner_init s)
    | some t =>
      match html_table t (domOfRows s.rows) with
      | Except.error e => Except.error e
      | Except.ok (rows, n) =>
        let s := { s with rows := rows }
        let s :=
          if jsGtZero n then { s with badgeHidden := false }
          else { s with badgeHidden := true }
        let p := redisplayAll s.visible s.rows
        Except.ok { s with rows := p.1, widgetRequests := s.widgetRequests + p.2 }
  else if msg.msg_type == "error" then
    Except.ok { s with warnings :=
      s.warnings ++ ["[dataclean] " ++ msg.evalue, "[dataclean] " ++ msg.traceback] }
  else Except.ok s

/-- RowEv is an event on a single summary row: a click on its toggle
anchor, arrival of the pending widget reply (a display_data message
reaching the wrapper the loader registered), or a full summary redraw
in which the row's id persists. -/
inductive RowEv where
  | click : RowEv
  | reply : RowEv
  | redraw : RowEv
  deriving Repr, DecidableEq

/-- ddMsg is a display_data reply carrying rendered widget output. -/
def ddMsg : Msg :=
  { msg_type := "display_data", text := none, evalue := "", traceback := "" }

/-- colStep is the effect of one event on a column row while the panel
visibility stays fixed: click runs the delegated handler; reply runs
display_widgets on the current wrapper (a reply whose wrapper was
discarded is a no-op); redraw is the per-row slice of a summary redraw
with the same id present, so the class attribute is copied, the cell
content returns to the loading placeholder, and the redisplay pass of
code_exec_callback runs. The second component counts kernel
widget-load requests. -/
def colStep (visible : Bool) (c : ColRow) : RowEv → ColRow × Nat
  | RowEv.click => toggleColumn_click visible c
  | RowEv.reply =>
    (match c.widget with
     | some w => { c with widget := some (display_widgets ddMsg w).1 }
     | none => c, 0)
  | RowEv.redraw => redisplayCol visible { c with widget := none }

/-- colRun folds colStep over an event list, summing requests. -/
def colRun (visible : Bool) : ColRow → List RowEv → ColRow × Nat
  | c, [] => (c, 0)
  | c, e :: es =>
    let p := colStep visible c e
    let q := colRun visible p.1 es
    (q.1, p.2 + q.2)

/-- dfStep is the dataframe-level analogue of colStep, acting on the
pipeline detail row of a DfRow (its column rows are not touched by
these events). -/
def dfStep (visible : Bool) (r : DfRow) : RowEv → DfRow × Nat
  | RowEv.click => toggleDataframe_click visible r
  | RowEv.reply =>
    (match r.pipelineWidget with
     | some w => { r with pipelineWidget := some (display_widgets ddMsg w).1 }
     | none => r, 0)
  | RowEv.redraw => redisplayDfRow visible { r with pipelineWidget := none }

/-- dfRun folds dfStep over an event list, summing requests. -/
def dfRun (visible : Bool) : DfRow → List RowEv → DfRow × Nat
  | r, [] => (r, 0)
  | r, e :: es =>
    let p := dfStep visible r e
    let q := dfRun visible p.1 es
    (q.1, p.2 + q.2)



/-- Lookup in an association list with distinct keys finds exactly the
member entry. -/
theorem lookup_eq_of_mem_of_nodup :
    ∀ (l : Dom) (k : String) (v : Classes),
      (l.map Prod.fst).Nodup → (k, v) ∈ l → l.lookup k = some v := by
  intro l
  induction l with
  | nil => intro k v _ hm; cases hm
  | cons a t ih =>
    intro k v hnd hm
    rw [List.map_cons, List.nodup_cons] at hnd
    rcases List.mem_cons.mp hm with h | h
    · obtain ⟨a1, a2⟩ := a
      cases h
      simp [List.lookup]
    · have hk : k ∈ t.map Prod.fst := List.mem_map.mpr ⟨(k, v), h, rfl⟩
      have hne : (k == a.1) = false := by
        apply beq_eq_false_iff_ne.mpr
        intro e
        exact hnd.1 (e ▸ hk)
      obtain ⟨a1, a2⟩ := a
      simpa [List.lookup, hne] using ih k v hnd.2 h

/-- The pipeline detail cell of every rendered dataframe row appears in
the id-indexed view of the table. -/
theorem pipeline_entry_mem {rows : List DfRow} {e : DfRow} (he : e ∈ rows) :
    (e.dfId ++ "_row", e.pipelineCls) ∈ domOfRows rows := by
  unfold domOfRows
  exact List.mem_flatten.mpr
    ⟨dfElems e, List.mem_map_of_mem _ he, by simp [dfElems]⟩

/-- The sub-table cell of every rendered dataframe row appears in the
id-indexed view of the table. -/
theorem table_entry_mem {rows : List DfRow} {e : DfRow} (he : e ∈ rows) :
    ("table_" ++ e.dfId, e.tableCls) ∈ domOfRows rows := by
  unfold domOfRows
  exact List.mem_flatten.mpr
    ⟨dfElems e, List.mem_map_of_mem _ he, by simp [dfElems]⟩

/-- The detail cell of every rendered column row appears in the
id-indexed view of the table. -/
theorem col_entry_mem {rows : List DfRow} {e : DfRow} {c : ColRow}
    (he : e ∈ rows) (hc : c ∈ e.cols) :
    (c.colId ++ "_row", c.cls) ∈ domOfRows rows := by
  unfold domOfRows
  refine List.mem_flatten.mpr ⟨dfElems e, List.mem_map_of_mem _ he, ?_⟩
  unfold dfElems
  refine List.mem_append.mpr (Or.inr ?_)
  exact List.mem_flatten.mpr
    ⟨colElems c, List.mem_map_of_mem _ hc, by simp [colElems]⟩

/-- A successfully built column row takes its detail-cell class from
the current document by id, defaulting to hidden, and starts with the
loading placeholder. -/
theorem buildCol_cls {dom : Dom} {cv : Option JSValue} {c : ColRow}
    (h : buildCol dom cv = Except.ok c) :
    c.cls = lookupD dom (c.colId ++ "_row") ["hidden"] ∧ c.widget = none := by
  unfold buildCol at h
  split at h
  · cases h
  · cases h
  · rw [eq_comm] at h
    split at h
    · cases h
    · cases h
    · cases h
      exact ⟨rfl, rfl⟩

/-- Every column row of a successfully built column list takes its
class from the current document by id. -/
theorem buildCols_cls :
    ∀ (dom : Dom) (vs : List (Option JSValue)) (cs : List ColRow),
      buildCols dom vs = Except.ok cs →
      ∀ c ∈ cs, c.cls = lookupD dom (c.colId ++ "_row") ["hidden"] ∧ c.widget = none := by
  intro dom vs
  induction vs with
  | nil =>
    intro cs h c hc
    unfold buildCols at h
    cases h
    cases hc
  | cons v rest ih =>
    intro cs h c hc
    unfold buildCols at h
    split at h
    · cases h
    · split at h
      · cases h
      · cases h
        rcases List.mem_cons.mp hc with h1 | h1
        · subst h1
          exact buildCol_cls (by assumption)
        · exact ih _ (by assumption) c h1

/-- A successfully built dataframe row takes its pipeline and sub-table
cell classes from the current document by id, resets the pipeline
widget to the loading placeholder, and builds its columns the same
way. -/
theorem buildDf_cls {dom : Dom} {dv : Option JSValue} {e : DfRow}
    (h : buildDf dom dv = Except.ok e) :
    e.pipelineCls = lookupD dom (e.dfId ++ "_row") ["pipeline_widget", "hidden"] ∧
    e.tableCls = lookupD dom ("table_" ++ e.dfId) ["hidden"] ∧
    e.pipelineWidget = none ∧
    ∀ c ∈ e.cols, c.cls = lookupD dom (c.colId ++ "_row") ["hidden"] ∧ c.widget = none := by
  unfold buildDf at h
  split at h
  · cases h
  · cases h
  · rw [eq_comm] at h
    split at h
    · cases h
    · cases h
    · split at h
      · cases h
      · cases h
        exact ⟨rfl, rfl, rfl, buildCols_cls _ _ _ (by assumption)⟩

/-- Every row of a successfully built table arises from a successful
buildDf against the same document view. -/
theorem buildRows_mem :
    ∀ (dom : Dom) (vs : List (Option JSValue)) (rs : List DfRow),
      buildRows dom vs = Except.ok rs →
      ∀ e ∈ rs, ∃ dv, buildDf dom dv = Except.ok e := by
  intro dom vs
  induction vs with
  | nil =>
    intro rs h e he
    unfold buildRows at h
    cases h
    cases he
  | cons v rest ih =>
    intro rs h e he
    unfold buildRows at h
    split at h
    · cases h
    · split at h
      · cases h
      · cases h
        rcases List.mem_cons.mp he with h1 | h1
        · subst h1
          exact ⟨v, by assumption⟩
        · exact ih _ (by assumption) e h1

/-- Every row of a successful build arises from a successful buildDf
against the same document view. -/
theorem build_mem {v : JSValue} {dom : Dom} {rs : List DfRow} {n : Option Nat}
    (h : build v dom = Except.ok (rs, n)) :
    ∀ e ∈ rs, ∃ dv, buildDf dom dv = Except.ok e := by
  unfold build at h
  split at h
  · cases h
  · split at h
    · cases h
    · cases h
      exact buildRows_mem _ _ _ (by assumption)

/-- Indexing a list at each position of its range enumerates its
elements. -/
theorem range_map_get (l : List JSValue) :
    (List.range l.length).map (fun j => l.get? j) = l.map some := by
  induction l with
  | nil => simp
  | cons a t ih =>
    rw [List.length_cons, List.range_succ_eq_map, List.map_cons, List.map_map]
    have hcomp : ((fun j => (a :: t).get? j) ∘ Nat.succ) = (fun j => t.get? j) := rfl
    rw [hcomp, ih]
    rfl

/-- The loop of html_table over an array value visits exactly the
array elements. -/
theorem range_map_jsIndexV (l : List JSValue) :
    (List.range l.length).map (fun j => jsIndexV (JSValue.arr l) j) = l.map some :=
  range_map_get l

/-- On a well-formed column descriptor every access of buildCol is
defined, so it cannot throw. -/
theorem buildCol_ok_of_wf (dom : Dom) (cv : JSValue) (hw : wfColElem cv = true) :
    ∃ c, buildCol dom (some cv) = Except.ok c := by
  cases cv with
  | obj fields =>
    cases hd : jsProp (JSValue.obj fields) "description" with
    | none => simp [wfColElem, hd] at hw
    | some d =>
      cases d with
      | null => simp [wfColElem, hd] at hw
      | bool b => exact ⟨_, by simp only [buildCol.eq_def, hd]; rfl⟩
      | num n => exact ⟨_, by simp only [buildCol.eq_def, hd]; rfl⟩
      | str s => exact ⟨_, by simp only [buildCol.eq_def, hd]; rfl⟩
      | arr l => exact ⟨_, by simp only [buildCol.eq_def, hd]; rfl⟩
      | obj fs => exact ⟨_, by simp only [buildCol.eq_def, hd]; rfl⟩
  | null => simp [wfColElem] at hw
  | bool b => simp [wfColElem] at hw
  | num n => simp [wfColElem] at hw
  | str s => simp [wfColElem] at hw
  | arr l => simp [wfColElem] at hw

/-- On well-formed column descriptors the column loop cannot throw. -/
theorem buildCols_ok_of_wf :
    ∀ (dom : Dom) (vs : List JSValue), (∀ v ∈ vs, wfColElem v = true) →
      ∃ cs, buildCols dom (vs.map some) = Except.ok cs := by
  intro dom vs
  induction vs with
  | nil => intro _; exact ⟨[], rfl⟩
  | cons v t ih =>
    intro hall
    obtain ⟨c, hc⟩ := buildCol_ok_of_wf dom v (hall v (List.mem_cons_self v t))
    obtain ⟨cs, hcs⟩ := ih (fun w hw => hall w (List.mem_cons_of_mem _ hw))
    exact ⟨c :: cs, by simp [buildCols, hc, hcs]⟩

/-- On a well-formed dataframe descriptor every access of buildDf is
defined, so it cannot throw. -/
theorem buildDf_ok_of_wf (dom : Dom) (dv : JSValue) (hw : wfDfElem dv = true) :
    ∃ r, buildDf dom (some dv) = Except.ok r := by
  cases dv with
  | obj fields =>
    cases hd : jsProp (JSValue.obj fields) "dfCols" with
    | none => simp [wfDfElem, hd] at hw
    | some cv =>
      cases cv with
      | arr cols =>
        have hall : ∀ v ∈ cols, wfColElem v = true := by
          simpa [wfDfElem, hd, List.all_eq_true] using hw
        obtain ⟨cs, hcs⟩ := buildCols_ok_of_wf dom cols hall
        exact ⟨_, by
          simp only [buildDf.eq_def, hd, jsLength, iterCount]
          rw [range_map_jsIndexV, hcs]⟩
      | null => simp [wfDfElem, hd] at hw
      | bool b => simp [wfDfElem, hd] at hw
      | num n => simp [wfDfElem, hd] at hw
      | str s => simp [wfDfElem, hd] at hw
      | obj fs => simp [wfDfElem, hd] at hw
  | null => simp [wfDfElem] at hw
  | bool b => simp [wfDfElem] at hw
  | num n => simp [wfDfElem] at hw
  | str s => simp [wfDfElem] at hw
  | arr l => simp [wfDfElem] at hw

/-- On well-formed dataframe descriptors the dataframe loop cannot
throw. -/
theorem buildRows_ok_of_wf :
    ∀ (dom : Dom) (vs : List JSValue), (∀ v ∈ vs, wfDfElem v = true) →
      ∃ rs, buildRows dom (vs.map some) = Except.ok rs := by
  intro dom vs
  induction vs with
  | nil => intro _; exact ⟨[], rfl⟩
  | cons v t ih =>
    intro hall
    obtain ⟨r, hr⟩ := buildDf_ok_of_wf dom v (hall v (List.mem_cons_self v t))
    obtain ⟨rs, hrs⟩ := ih (fun w hw => hall w (List.mem_cons_of_mem _ hw))
    exact ⟨r :: rs, by simp [buildRows, hr, hrs]⟩

/-- On a well-formed payload the whole table build succeeds. -/
theorem build_ok_of_wf (v : JSValue) (dom : Dom) (hw : wfPayload v = true) :
    ∃ rows n, build v dom = Except.ok (rows, n) := by
  cases v with
  | arr items =>
    have hall : ∀ w ∈ items, wfDfElem w = true := by
      simpa [wfPayload, List.all_eq_true] using hw
    obtain ⟨rs, hrs⟩ := buildRows_ok_of_wf dom items hall
    refine ⟨rs, some items.length, ?_⟩
    simp only [build.eq_def, jsLength, iterCount]
    rw [range_map_jsIndexV, hrs]
  | null => simp [wfPayload] at hw
  | bool b => simp [wfPayload] at hw
  | num n => simp [wfPayload] at hw
  | str s => simp [wfPayload] at hw
  | obj fs => simp [wfPayload] at hw

/-- A blank text (empty or whitespace only) fails the JSON parse, in
the model as for JSON.parse itself. -/
theorem JSONparse_eq_none_of_blank (t : String) (h : skipWs t.toList = []) :
    JSONparse t = none := by
  have hv : parseVal (2 * t.length + 2) t.toList = none := by
    have e : 2 * t.length + 2 = 2 * t.length + 1 + 1 := rfl
    rw [e]
    simp only [parseVal, h]
    rfl
  unfold JSONparse
  rw [hv]

/-- C1: for every two descriptor lists that share a dataframe id, if
that dataframe's detail rows are expanded (class without hidden) in the
rendering of the first list, then rendering the second list against the
resulting document - html_table copies the class of the element with
the matching id and defaults new ids to collapsed - again shows it
expanded; likewise for every column id shared between the two
renderings. Element ids of the first rendering are assumed distinct, as
descriptor ids are unique. -/
theorem C1_expansion_preserved
    (v1 v2 : JSValue) (dom0 : Dom) (r1 r2 : List DfRow) (n1 n2 : Option Nat)
    (x y : String) (e1 e2 f1 f2 : DfRow) (ca cb : ColRow)
    (_h1 : build v1 dom0 = Except.ok (r1, n1))
    (hnd : (domKeys r1).Nodup)
    (h2 : build v2 (domOfRows r1) = Except.ok (r2, n2))
    (he1 : e1 ∈ r1) (he1x : e1.dfId = x)
    (hpe : hasCls e1.pipelineCls "hidden" = false)
    (hte : hasCls e1.tableCls "hidden" = false)
    (he2 : e2 ∈ r2) (he2x : e2.dfId = x)
    (hf1 : f1 ∈ r1) (hca : ca ∈ f1.cols) (hcay : ca.colId = y)
    (hce : hasCls ca.cls "hidden" = false)
    (hf2 : f2 ∈ r2) (hcb : cb ∈ f2.cols) (hcby : cb.colId = y) :
    hasCls e2.pipelineCls "hidden" = false ∧
    hasCls e2.tableCls "hidden" = false ∧
    hasCls cb.cls "hidden" = false := by
  unfold domKeys at hnd
  obtain ⟨dv, hdf⟩ := build_mem h2 e2 he2
  obtain ⟨hp2, ht2, _, _⟩ := buildDf_cls hdf
  obtain ⟨dw, hdw⟩ := build_mem h2 f2 hf2
  obtain ⟨_, _, _, hcols⟩ := buildDf_cls hdw
  obtain ⟨hcb2, _⟩ := hcols cb hcb
  have hlp : (domOfRows r1).lookup (e1.dfId ++ "_row") = some e1.pipelineCls :=
    lookup_eq_of_mem_of_nodup _ _ _ hnd (pipeline_entry_mem he1)
  have hlt : (domOfRows r1).lookup ("table_" ++ e1.dfId) = some e1.tableCls :=
    lookup_eq_of_mem_of_nodup _ _ _ hnd (table_entry_mem he1)
  have hlc : (domOfRows r1).lookup (ca.colId ++ "_row") = some ca.cls :=
    lookup_eq_of_mem_of_nodup _ _ _ hnd (col_entry_mem hf1 hca)
  refine ⟨?_, ?_, ?_⟩
  · rw [hp2, he2x, ← he1x, lookupD, hlp]
    exact hpe
  · rw [ht2, he2x, ← he1x, lookupD, hlt]
    exact hte
  · rw [hcb2, hcby, ← hcay, lookupD, hlc]
    exact hce

/-- c1v is a one-dataframe, one-column descriptor payload used to
witness C1. -/
def c1v : JSValue :=
  JSValue.arr [JSValue.obj [("dfId", JSValue.str "1"), ("dfName", JSValue.str "df"),
    ("dfShape", JSValue.str "3x2"), ("dfColnames", JSValue.str "a"),
    ("dfCols", JSValue.arr [JSValue.obj [("colId", JSValue.str "1_0"),
      ("colname", JSValue.str "a"),
      ("description", JSValue.obj [("dtype", JSValue.str "int64"),
        ("null_percentage", JSValue.str "0%"), ("distinct", JSValue.num 3)])]])]]

/-- c1dom is a document in which dataframe 1 and column 1_0 are
expanded (their detail cells lack the hidden class). -/
def c1dom : Dom := [("1_row", ["pipeline_widget"]), ("table_1", []), ("1_0_row", [])]

/-- c1col is the column row rendered from c1v against c1dom. -/
def c1col : ColRow :=
  { colId := "1_0", anchorCls := ["toggleColumn", "arrow-right"], colname := "a",
    dtype := "int64", nulls := "0%", distinct := "3", cls := [], widget := none }

/-- c1row is the dataframe row rendered from c1v against c1dom. -/
def c1row : DfRow :=
  { dfId := "1", dfAnchorCls := ["toggleDataframe", "arrow-right"], dfName := "df",
    dfShape := "3x2", dfColnames := "a", pipelineCls := ["pipeline_widget"],
    pipelineWidget := none, tableCls := [], cols := [c1col] }

/-- Witness for C1 at the concrete payload c1v rendered twice. -/
theorem C1_expansion_preserved_witness :
    hasCls c1row.pipelineCls "hidden" = false ∧
    hasCls c1row.tableCls "hidden" = false ∧
    hasCls c1col.cls "hidden" = false :=
  C1_expansion_preserved c1v c1v c1dom [c1row] [c1row] (some 1) (some 1)
    "1" "1_0" c1row c1row c1row c1row c1col c1col
    rfl (by decide) rfl
    (List.mem_singleton.mpr rfl) rfl rfl rfl
    (List.mem_singleton.mpr rfl) rfl
    (List.mem_singleton.mpr rfl) (List.mem_singleton.mpr rfl) rfl rfl
    (List.mem_singleton.mpr rfl) (List.mem_singleton.mpr rfl) rfl

/-- c2col is a freshly rendered collapsed column row (state after a
redraw, before any click): detail cell hidden and content at the
loading placeholder. -/
def c2col : ColRow :=
  { colId := "2_0", anchorCls := ["toggleColumn", "arrow-right"], colname := "b",
    dtype := "float64", nulls := "5%", distinct := "7", cls := ["hidden"],
    widget := none }

/-- Counterexample for C2: on a freshly rendered collapsed column row
with the panel visible, the sequence expand, collapse, re-expand
executed before the widget reply arrives issues three kernel widget
requests, not the single one the claim allows, because the loader guard
tests for injected output (which only the asynchronous reply provides)
and the click handler calls the loader on collapse clicks too. -/
theorem C2_counterexample :
    (colRun true c2col [RowEv.click, RowEv.click, RowEv.click]).2 = 3 ∧
    (colRun true c2col [RowEv.click, RowEv.click, RowEv.click]).2 ≠ 1 :=
  ⟨rfl, by decide⟩

/-- C2 amended: for a freshly rendered collapsed row (dataframe-level
or column-level) with the panel visible, the first expansion issues
exactly one widget request, and if the reply has been injected before
the row is collapsed, the sequence expand, reply, collapse, re-expand
issues exactly one request in total (zero additional); while the reply
is pending, each further toggle click issues one more request. -/
theorem C2_amended_once_per_loaded_expansion (c : ColRow) (r : DfRow)
    (hc : c.cls = ["hidden"]) (hw : c.widget = none)
    (hp : r.pipelineCls = ["pipeline_widget", "hidden"]) (ht : r.tableCls = ["hidden"])
    (hpw : r.pipelineWidget = none) :
    (colRun true c [RowEv.click]).2 = 1 ∧
    (colRun true c [RowEv.click, RowEv.reply, RowEv.click, RowEv.click]).2 = 1 ∧
    (dfRun true r [RowEv.click]).2 = 1 ∧
    (dfRun true r [RowEv.click, RowEv.reply, RowEv.click, RowEv.click]).2 = 1 := by
  refine ⟨?_, ?_, ?_, ?_⟩ <;>
    simp [colRun, colStep, dfRun, dfStep, toggleColumn_click, toggleDataframe_click,
      display_column_widget, display_pipeline_widget, jqFindOutput, toggleClass,
      toggleArrows, display_widgets, ddMsg, hc, hw, hp, ht, hpw]

/-- c2df is a freshly rendered collapsed dataframe row with no
columns. -/
def c2df : DfRow :=
  { dfId := "2", dfAnchorCls := ["toggleDataframe", "arrow-right"], dfName := "df2",
    dfShape := "4x1", dfColnames := "b", pipelineCls := ["pipeline_widget", "hidden"],
    pipelineWidget := none, tableCls := ["hidden"], cols := [] }

/-- Witness for the amended C2 at concrete fresh rows. -/
theorem C2_amended_witness :
    (colRun true c2col [RowEv.click]).2 = 1 ∧
    (colRun true c2col [RowEv.click, RowEv.reply, RowEv.click, RowEv.click]).2 = 1 ∧
    (dfRun true c2df [RowEv.click]).2 = 1 ∧
    (dfRun true c2df [RowEv.click, RowEv.reply, RowEv.click, RowEv.click]).2 = 1 :=
  C2_amended_once_per_loaded_expansion c2col c2df rfl rfl rfl rfl rfl

/-- C3: a full summary redraw in which an expanded row's id persists
resets that row's widget-loaded state (html_table replaces the detail
cell content with fresh loading markup before the loader runs again),
keeps the row expanded (its class attribute is copied verbatim), and
re-triggers the widget loader, which with the panel visible re-requests
the widget from the kernel: afterwards the cell holds a fresh wrapper
with no injected output and exactly one request was issued. The
dataframe-level row is taken without columns so the count concerns the
row itself. -/
theorem C3_redraw_resets_and_rerequests (c : ColRow) (r : DfRow)
    (hc : hasCls c.cls "hidden" = false)
    (hp : hasCls r.pipelineCls "pipeline_widget" = true)
    (hph : hasCls r.pipelineCls "hidden" = false)
    (hcols : r.cols = []) :
    (colStep true c RowEv.redraw).1.widget = some { hasOutput := false } ∧
    (colStep true c RowEv.redraw).1.cls = c.cls ∧
    (colStep true c RowEv.redraw).2 = 1 ∧
    (dfStep true r RowEv.redraw).1.pipelineWidget = some { hasOutput := false } ∧
    (dfStep true r RowEv.redraw).1.pipelineCls = r.pipelineCls ∧
    (dfStep true r RowEv.redraw).2 = 1 := by
  refine ⟨?_, ?_, ?_, ?_, ?_, ?_⟩ <;>
    simp [colStep, dfStep, redisplayCol, redisplayDfRow, redisplayCols,
      display_column_widget, display_pipeline_widget, jqFindOutput, toggleArrows,
      hc, hp, hph, hcols]

/-- c3col is an expanded column row whose widget had been loaded before
the redraw. -/
def c3col : ColRow :=
  { colId := "3_0", anchorCls := ["toggleColumn", "arrow-down"], colname := "d",
    dtype := "object", nulls := "1%", distinct := "2", cls := [],
    widget := some { hasOutput := true } }

/-- c3df is an expanded dataframe row whose pipeline widget had been
loaded before the redraw. -/
def c3df : DfRow :=
  { dfId := "3", dfAnchorCls := ["toggleDataframe", "arrow-down"], dfName := "df3",
    dfShape := "2x1", dfColnames := "d", pipelineCls := ["pipeline_widget"],
    pipelineWidget := some { hasOutput := true }, tableCls := [], cols := [] }

/-- Witness for C3 at concrete expanded rows. -/
theorem C3_witness :
    (colStep true c3col RowEv.redraw).1.widget = some { hasOutput := false } ∧
    (colStep true c3col RowEv.redraw).1.cls = c3col.cls ∧
    (colStep true c3col RowEv.redraw).2 = 1 ∧
    (dfStep true c3df RowEv.redraw).1.pipelineWidget = some { hasOutput := false } ∧
    (dfStep true c3df RowEv.redraw).1.pipelineCls = c3df.pipelineCls ∧
    (dfStep true c3df RowEv.redraw).2 = 1 :=
  C3_redraw_resets_and_rerequests c3col c3df rfl rfl rfl rfl

/-- execOk is true when a handler run completed without throwing. -/
def execOk (r : Except JsErr JsState) : Bool :=
  match r with
  | Except.ok _ => true
  | Except.error _ => false

/-- c4state is an arbitrary concrete extension state for the C4
counterexample. -/
def c4state : JsState :=
  { rows := [], badgeHidden := true, visible := true, metadataWindowDisplay := none,
    creationSnippets := 0, polls := 0, widgetRequests := 0, warnings := [] }

/-- Counterexample for C4: a poll reply whose stream text is the empty
string is not treated as zero dataframes and does not re-issue the
creation snippet; JSON.parse throws inside html_table and the error
escapes the handler, contradicting the claimed self-healing for empty
or unparseable text (only undefined text self-heals). -/
theorem C4_counterexample :
    code_exec_callback
      { msg_type := "stream", text := some "", evalue := "", traceback := "" }
      c4state = Except.error JsErr.parseErr :=
  rfl

/-- C4 amended: only a poll reply whose stream text is undefined takes
the self-healing path - the handler re-runs initialization, which
re-issues the creation snippet for the remote dataframe-tracking object
(and a fresh poll) without raising an error - while a blank stream text
(empty or whitespace only), on which JSON.parse throws, raises the
parse error out of the handler and does not re-issue the snippet. -/
theorem C4_amended_self_heal_only_on_undefined (s : JsState) (ev tb : String) :
    code_exec_callback { msg_type := "stream", text := none, evalue := ev, traceback := tb } s
      = Except.ok (datacleaner_init s) ∧
    (datacleaner_init s).creationSnippets = s.creationSnippets + 1 ∧
    (∀ t : String, skipWs t.toList = [] →
      code_exec_callback { msg_type := "stream", text := some t, evalue := ev, traceback := tb } s
        = Except.error JsErr.parseErr) := by
  refine ⟨by simp [code_exec_callback], rfl, ?_⟩
  intro t ht
  simp [code_exec_callback, html_table, JSONparse_eq_none_of_blank t ht]

/-- Witness for the amended C4: undefined text self-heals, the empty
(blank) string throws. -/
theorem C4_amended_witness :
    code_exec_callback { msg_type := "stream", text := none, evalue := "", traceback := "" }
      c4state = Except.ok (datacleaner_init c4state) ∧
    code_exec_callback { msg_type := "stream", text := some "", evalue := "", traceback := "" }
      c4state = Except.error JsErr.parseErr :=
  ⟨(C4_amended_self_heal_only_on_undefined c4state "" "").1,
   (C4_amended_self_heal_only_on_undefined c4state "" "").2.2 "" rfl⟩

/-- C5: redrawing the summary from a poll reply whose text parses as
the empty descriptor list produces a table with zero dataframe rows and
puts the toolbar badge into the hidden state, whatever the prior rows,
expansion or badge state. -/
theorem C5_empty_list_redraw (s : JsState) (t ev tb : String)
    (h : JSONparse t = some (JSValue.arr [])) :
    ∃ s2, code_exec_callback
        { msg_type := "stream", text := some t, evalue := ev, traceback := tb } s
      = Except.ok s2 ∧ s2.rows = [] ∧ s2.badgeHidden = true := by
  refine ⟨{ s with rows := [], badgeHidden := true, widgetRequests := s.widgetRequests + 0 }, ?_, rfl, rfl⟩
  simp [code_exec_callback, html_table, h, build, buildRows, jsLength, iterCount,
    jsGtZero, redisplayAll]

/-- c5state is a prior state with a rendered expanded dataframe and a
visible badge, to witness that C5 holds regardless of prior state. -/
def c5state : JsState :=
  { rows := [c3df], badgeHidden := false, visible := true,
    metadataWindowDisplay := some true, creationSnippets := 1, polls := 3,
    widgetRequests := 2, warnings := [] }

/-- Witness for C5 at the concrete reply text emitted by the kernel for
zero dataframes. -/
theorem C5_witness :
    ∃ s2, code_exec_callback
        { msg_type := "stream", text := some "[]", evalue := "", traceback := "" }
        c5state = Except.ok s2 ∧ s2.rows = [] ∧ s2.badgeHidden = true :=
  C5_empty_list_redraw c5state "[]" "" "" rfl

/-- C6: toggling the panel from hidden to visible makes it visible and
triggers exactly one poll-and-render cycle - the completion callback
runs data_cleaner, which issues exactly one introspection request whose
reply redraws the table - so revealed content is refreshed. -/
theorem C6_toggle_visible_one_poll (s : JsState) (h : s.visible = false) :
    (toggle_datacleaner s).visible = true ∧
    (toggle_datacleaner s).polls = s.polls + 1 := by
  simp [toggle_datacleaner, data_cleaner, varRefresh, h]

/-- c6state is a concrete hidden-panel state. -/
def c6state : JsState :=
  { rows := [], badgeHidden := true, visible := false, metadataWindowDisplay := some false,
    creationSnippets := 1, polls := 5, widgetRequests := 0, warnings := [] }

/-- Witness for C6 at a concrete hidden-panel state. -/
theorem C6_witness :
    (toggle_datacleaner c6state).visible = true ∧
    (toggle_datacleaner c6state).polls = c6state.polls + 1 :=
  C6_toggle_visible_one_poll c6state rfl

/-- c7state is an arbitrary concrete extension state for the C7
counterexample. -/
def c7state : JsState :=
  { rows := [c3df], badgeHidden := false, visible := true, metadataWindowDisplay := some true,
    creationSnippets := 2, polls := 7, widgetRequests := 1, warnings := [] }

/-- Counterexample for C7: a stream reply whose content text is the
empty string makes code_exec_callback throw (JSON.parse raises a
SyntaxError inside html_table that nothing catches), so processing a
malformed reply is not exception-free. -/
theorem C7_counterexample :
    code_exec_callback
      { msg_type := "stream", text := some "", evalue := "x", traceback := "y" }
      c7state = Except.error JsErr.parseErr :=
  rfl

/-- C7 amended: the handlers do not throw on any non-stream message
(error replies are logged), on a stream reply with undefined text
(self-healing path), or on a stream reply whose text parses as a
well-formed descriptor payload - the shape the kernel-side library
emits, on which the parse model provably agrees with JSON.parse and
every access of html_table is defined; outside this set the handlers
are not exception-safe, as the empty stream text of the counterexample
shows. -/
theorem C7_amended_no_throw_on_wellformed (msg : Msg) (s : JsState) :
    (msg.msg_type ≠ "stream" → execOk (code_exec_callback msg s) = true) ∧
    (msg.text = none → execOk (code_exec_callback msg s) = true) ∧
    (∀ t v, msg.text = some t → JSONparse t = some v → wfPayload v = true →
      execOk (code_exec_callback msg s) = true) := by
  refine ⟨?_, ?_, ?_⟩
  · intro hne
    have h1 : (msg.msg_type == "stream") = false := beq_eq_false_iff_ne.mpr hne
    by_cases he : msg.msg_type = "error"
    · simp [code_exec_callback, h1, he, execOk]
    · have h2 : (msg.msg_type == "error") = false := beq_eq_false_iff_ne.mpr he
      simp [code_exec_callback, h1, h2, execOk]
  · intro hn
    by_cases hs : msg.msg_type = "stream"
    · simp [code_exec_callback, hs, hn, execOk]
    · have h1 : (msg.msg_type == "stream") = false := beq_eq_false_iff_ne.mpr hs
      by_cases he : msg.msg_type = "error"
      · simp [code_exec_callback, h1, he, execOk]
      · have h2 : (msg.msg_type == "error") = false := beq_eq_false_iff_ne.mpr he
        simp [code_exec_callback, h1, h2, execOk]
  · intro t v ht hp hw
    obtain ⟨rows, n, hb⟩ := build_ok_of_wf v (domOfRows s.rows) hw
    have hok : html_table t (domOfRows s.rows) = Except.ok (rows, n) := by
      simp [html_table, hp, hb]
    by_cases hs : msg.msg_type = "stream"
    · simp [code_exec_callback, hs, ht, hok, execOk]
    · have h1 : (msg.msg_type == "stream") = false := beq_eq_false_iff_ne.mpr hs
      by_cases he : msg.msg_type = "error"
      · simp [code_exec_callback, h1, he, execOk]
      · have h2 : (msg.msg_type == "error") = false := beq_eq_false_iff_ne.mpr he
        simp [code_exec_callback, h1, h2, execOk]

/-- Witness for the amended C7: an error reply, an undefined-text
stream reply and a well-formed empty-list stream reply all complete
without throwing. -/
theorem C7_amended_witness :
    execOk (code_exec_callback
      { msg_type := "error", text := none, evalue := "boom", traceback := "tb" } c7state) = true ∧
    execOk (code_exec_callback
      { msg_type := "stream", text := none, evalue := "", traceback := "" } c7state) = true ∧
    execOk (code_exec_callback
      { msg_type := "stream", text := some "[]", evalue := "", traceback := "" } c7state) = true :=
  ⟨(C7_amended_no_throw_on_wellformed
      { msg_type := "error", text := none, evalue := "boom", traceback := "tb" } c7state).1
      (by decide),
   (C7_amended_no_throw_on_wellformed
      { msg_type := "stream", text := none, evalue := "", traceback := "" } c7state).2.1 rfl,
   (C7_amended_no_throw_on_wellformed
      { msg_type := "stream", text := some "[]", evalue := "", traceback := "" } c7state).2.2
      "[]" (JSValue.arr []) rfl rfl rfl⟩

/-- C8: both widget-load operations are no-ops while the panel is
hidden: the row state (placeholder content included) is unchanged and
no kernel execute call is issued. -/
theorem C8_hidden_noop (c : ColRow) (r : DfRow) :
    display_column_widget false c = (c, 0) ∧
    display_pipeline_widget false r = (r, 0) := by
  simp [display_column_widget, display_pipeline_widget]

/-- C9: a widget-load reply injects content into the placeholder
wrapper exactly when its type is display_data (and logs nothing); an
error reply logs evalue and traceback without modifying the wrapper;
a stream reply, like any other type, changes nothing and logs
nothing. -/
theorem C9_reply_dispatch (msg : Msg) (w : WidgetDiv) :
    (msg.msg_type = "display_data" →
      display_widgets msg w = ({ hasOutput := true }, [])) ∧
    (msg.msg_type = "error" →
      display_widgets msg w =
        (w, ["[dataclean] " ++ msg.evalue, "[dataclean] " ++ msg.traceback])) ∧
    (msg.msg_type ≠ "display_data" → msg.msg_type ≠ "error" →
      display_widgets msg w = (w, [])) := by
  refine ⟨?_, ?_, ?_⟩
  · intro h
    simp [display_widgets, h]
  · intro h
    simp [display_widgets, h]
  · intro h1 h2
    simp [display_widgets, beq_eq_false_iff_ne.mpr h1, beq_eq_false_iff_ne.mpr h2]

/-- Witness for C9 at the three reply kinds on a concrete wrapper. -/
theorem C9_witness :
    display_widgets { msg_type := "display_data", text := none, evalue := "", traceback := "" }
      { hasOutput := false } = ({ hasOutput := true }, []) ∧
    display_widgets { msg_type := "error", text := none, evalue := "e", traceback := "t" }
      { hasOutput := false }
      = ({ hasOutput := false }, ["[dataclean] " ++ "e", "[dataclean] " ++ "t"]) ∧
    display_widgets { msg_type := "stream", text := some "out", evalue := "", traceback := "" }
      { hasOutput := false } = ({ hasOutput := false }, []) :=
  ⟨(C9_reply_dispatch
      { msg_type := "display_data", text := none, evalue := "", traceback := "" }
      { hasOutput := false }).1 rfl,
   (C9_reply_dispatch
      { msg_type := "error", text := none, evalue := "e", traceback := "t" }
      { hasOutput := false }).2.1 rfl,
   (C9_reply_dispatch
      { msg_type := "stream", text := some "out", evalue := "", traceback := "" }
      { hasOutput := false }).2.2 (by decide) (by decide)⟩

/-- C10: every completed panel toggle, in either direction, persists
the new visibility flag into the notebook metadata and then triggers a
full poll-and-render cycle (one introspection request), so hiding the
panel also polls once. -/
theorem C10_toggle_persists_and_polls (s : JsState) :
    (toggle_datacleaner s).metadataWindowDisplay = some (!s.visible) ∧
    (toggle_datacleaner s).visible = !s.visible ∧
    (toggle_datacleaner s).polls = s.polls + 1 := by
  simp [toggle_datacleaner, data_cleaner, varRefresh]
